import Mathlib

/-!
Shallow embedding of the asynchronous request-dispatch pipeline of
`src/app.py` (class `ApiTesterApp`), covering:

* the JSON helpers used by `_format_body` and the worker's result dict
  (modelling Python's `json.loads` / `json.dumps(..., indent=2)` for the
  JSON fragment actually exercised: objects, arrays, strings, integers,
  booleans, null — no floats);
* `RequestHistoryItem` (a `@dataclass`, hence structural `__eq__`; the
  extra `ref` field models Python object identity and is *not* compared
  by the dataclass equality `itemEq`);
* `_parse_headers`, `_queue_request`, `_worker_loop` (as a pure function
  from the drained queue plus the transport environment to the published
  `(record, result)` pairs), the poll loop of `_start_response_loop`,
  `_delete_selected_history` and `_clear_history`;
* a small-step interleaving system for the thread-spawn logic of
  `_queue_request` (`if self.request_queue.qsize() == 1: Thread(...)`)
  running concurrently with `_worker_loop`.

Wall-clock durations (`time.perf_counter` differences) are modelled as
abstract `Nat` values supplied by the environment; string trimming uses
`String.trim` for Python `str.strip()` and splitting on `'\n'` for
`str.splitlines()` (the inputs in play contain only `'\n'` separators).
-/

namespace BackendGui

mutual

/-- Model of a parsed Python JSON value as produced by `json.loads`.
Numbers are restricted to integers: no input considered here carries
floats, and the embedding rejects them at parse time. Element and field
lists are mutual inductives so that all recursions stay structural. -/
inductive Json where
  | null
  | bool (b : Bool)
  | num (n : Int)
  | str (s : String)
  | arr (elems : JsonList)
  | obj (fields : JsonFields)

/-- Elements of a JSON array. -/
inductive JsonList where
  | nil
  | cons (hd : Json) (tl : JsonList)

/-- Key/value members of a JSON object, in insertion order. -/
inductive JsonFields where
  | nil
  | cons (key : String) (val : Json) (tl : JsonFields)

end

/-- Whitespace characters of Python's JSON scanner (space, tab,
newline, carriage return). -/
def jsonWsChar (c : Char) : Bool :=
  [' ', '\t', '\n', '\r'].contains c

/-- Whitespace skipping of Python's JSON scanner. -/
def skipWs (cs : List Char) : List Char :=
  cs.dropWhile jsonWsChar

/-- Translation of a JSON string escape character (the subset the inputs
exercise; `\uXXXX` escapes are not modelled). The quote, backslash and
solidus escape to themselves. -/
def escCharOf (e : Char) : Option Char :=
  if e = 'n' then some '\n'
  else if e = 't' then some '\t'
  else if e = 'r' then some '\r'
  else if e = 'b' then some '\x08'
  else if e = 'f' then some '\x0c'
  else if e = '"' ∨ e = '\\' ∨ e = '/' then some e
  else none

/-- Scan of a JSON string body after the opening quote; returns the
decoded characters and the input after the closing quote. -/
def parseStringChars : List Char → Option (List Char × List Char)
  | [] => none
  | '"' :: rest => some ([], rest)
  | '\\' :: e :: rest =>
    match escCharOf e with
    | some c => (parseStringChars rest).map (fun p => (c :: p.1, p.2))
    | none => none
  | c :: rest => (parseStringChars rest).map (fun p => (c :: p.1, p.2))

/-- Greedy digit scan used for JSON integer literals. -/
def takeDigits : List Char → List Char × List Char
  | c :: rest =>
    if c.isDigit then
      let p := takeDigits rest
      (c :: p.1, p.2)
    else ([], c :: rest)
  | [] => ([], [])

/-- Numeric value of a digit string. -/
def digitsToNat (ds : List Char) : Nat :=
  ds.foldl (fun n c => n * 10 + (c.toNat - '0'.toNat)) 0

/-- Expectation of a fixed literal tail (used for `null`, `true`,
`false`). -/
def expectChars : List Char → List Char → Option (List Char)
  | [], input => some input
  | c :: cs, d :: rest => if c = d then expectChars cs rest else none
  | _ :: _, [] => none

mutual

/-- Fuel-indexed recursive-descent parser for a JSON value, mirroring
`json.loads`. A trailing `.`, `e` or `E` after an integer marks a float,
which the embedding does not model, so parsing fails there. -/
def parseVal : Nat → List Char → Option (Json × List Char)
  | 0, _ => none
  | fuel + 1, input =>
    match skipWs input with
    | [] => none
    | c :: rest =>
      if c = 'n' then (expectChars ['u', 'l', 'l'] rest).map (fun r => (Json.null, r))
      else if c = 't' then (expectChars ['r', 'u', 'e'] rest).map (fun r => (Json.bool true, r))
      else if c = 'f' then
        (expectChars ['a', 'l', 's', 'e'] rest).map (fun r => (Json.bool false, r))
      else if c = '"' then
        (parseStringChars rest).map (fun p => (Json.str (String.mk p.1), p.2))
      else if c = '\x7b' then
        match skipWs rest with
        | '\x7d' :: r => some (Json.obj JsonFields.nil, r)
        | _ => (parseFields fuel rest).map (fun p => (Json.obj p.1, p.2))
      else if c = '[' then
        match skipWs rest with
        | ']' :: r => some (Json.arr JsonList.nil, r)
        | _ => (parseElems fuel rest).map (fun p => (Json.arr p.1, p.2))
      else if c = '-' then
        match takeDigits rest with
        | ([], _) => none
        | (ds, r) =>
          match r with
          | d :: _ => if d = '.' ∨ d = 'e' ∨ d = 'E' then none
                      else some (Json.num (-(digitsToNat ds : Int)), r)
          | [] => some (Json.num (-(digitsToNat ds : Int)), r)
      else if c.isDigit then
        match takeDigits (c :: rest) with
        | (ds, r) =>
          match r with
          | d :: _ => if d = '.' ∨ d = 'e' ∨ d = 'E' then none
                      else some (Json.num (digitsToNat ds : Int), r)
          | [] => some (Json.num (digitsToNat ds : Int), r)
      else none

/-- Parser for the elements of a non-empty array, entered just after
`[` (the empty array is handled in `parseVal`). -/
def parseElems : Nat → List Char → Option (JsonList × List Char)
  | 0, _ => none
  | fuel + 1, input =>
    match parseVal fuel input with
    | none => none
    | some (v, rest) =>
      match skipWs rest with
      | ',' :: r => (parseElems fuel r).map (fun p => (JsonList.cons v p.1, p.2))
      | ']' :: r => some (JsonList.cons v JsonList.nil, r)
      | _ => none

/-- Parser for the members of a non-empty object, entered just after
the opening brace (the empty object is handled in `parseVal`).
Duplicate keys are kept in order; no input in play repeats a key. -/
def parseFields : Nat → List Char → Option (JsonFields × List Char)
  | 0, _ => none
  | fuel + 1, input =>
    match skipWs input with
    | '"' :: rest =>
      match parseStringChars rest with
      | none => none
      | some (kcs, rest2) =>
        match skipWs rest2 with
        | ':' :: rest3 =>
          match parseVal fuel rest3 with
          | none => none
          | some (v, rest4) =>
            match skipWs rest4 with
            | ',' :: r =>
              (parseFields fuel r).map (fun p => (JsonFields.cons (String.mk kcs) v p.1, p.2))
            | '\x7d' :: r => some (JsonFields.cons (String.mk kcs) v JsonFields.nil, r)
            | _ => none
        | _ => none
    | _ => none

end

/-- Model of `json.loads(s)` for the JSON fragment described at `Json`:
`none` stands for a raised `json.JSONDecodeError`. -/
def jsonLoads (s : String) : Option Json :=
  match parseVal (s.length + 2) s.toList with
  | some (v, rest) => if skipWs rest = [] then some v else none
  | none => none

/-- Escaping applied by `json.dumps` to a string value (the subset the
inputs exercise). -/
def jsonEscapeChar (c : Char) : String :=
  if c = '"' then "\\\""
  else if c = '\\' then "\\\\"
  else if c = '\n' then "\\n"
  else if c = '\t' then "\\t"
  else if c = '\r' then "\\r"
  else String.mk [c]

/-- Escaped form of a whole string under `json.dumps`. -/
def jsonEscape (s : String) : String :=
  String.join (s.toList.map jsonEscapeChar)

/-- Indentation padding: `json.dumps(..., indent=2)` indents nesting
depth `d` by `2 * d` spaces. -/
def indentPad (d : Nat) : String :=
  String.mk (List.replicate (2 * d) ' ')

mutual

/-- Serializer mirroring `json.dumps(v, indent=2)`; `d` is the current
nesting depth. -/
def dumpVal : Json → Nat → String
  | .null, _ => "null"
  | .bool true, _ => "true"
  | .bool false, _ => "false"
  | .num n, _ => toString n
  | .str s, _ => "\"" ++ jsonEscape s ++ "\""
  | .arr .nil, _ => "[]"
  | .arr (.cons x xs), d =>
      "[\n" ++ dumpItems (JsonList.cons x xs) (d + 1) ++ "\n" ++ indentPad d ++ "]"
  | .obj .nil, _ => "\x7b\x7d"
  | .obj (.cons k v fs), d =>
      "\x7b\n" ++ dumpFields (JsonFields.cons k v fs) (d + 1) ++ "\n" ++ indentPad d ++ "\x7d"

/-- Serialization of array items, one per line, comma-separated. -/
def dumpItems : JsonList → Nat → String
  | .nil, _ => ""
  | .cons x .nil, d => indentPad d ++ dumpVal x d
  | .cons x (.cons y xs), d =>
      indentPad d ++ dumpVal x d ++ ",\n" ++ dumpItems (JsonList.cons y xs) d

/-- Serialization of object members, one per line, `": "` after each
key, comma-separated. -/
def dumpFields : JsonFields → Nat → String
  | .nil, _ => ""
  | .cons k v .nil, d => indentPad d ++ "\"" ++ jsonEscape k ++ "\": " ++ dumpVal v d
  | .cons k v (.cons k2 v2 fs), d =>
      indentPad d ++ "\"" ++ jsonEscape k ++ "\": " ++ dumpVal v d ++ ",\n"
        ++ dumpFields (JsonFields.cons k2 v2 fs) d

end

/-- Model of `json.dumps(v, indent=2)`. -/
def jsonDumps (v : Json) : String :=
  dumpVal v 0

/-- Embedding of `ApiTesterApp._format_body` (src/app.py lines 307-313):
the raw text is returned unchanged when `json.loads` raises, and the
re-serialized indented form otherwise. -/
def formatBody (body : String) : String :=
  match jsonLoads body with
  | none => body
  | some parsed => jsonDumps parsed

/-- Embedding of the `RequestHistoryItem` dataclass (src/app.py lines
20-28). `ref` models Python object identity (two appends of equal
content are distinct objects); it is not a dataclass field and is
excluded from the dataclass equality `itemEq`. `response_time` holds
the measured `time.perf_counter` difference as an abstract tick count. -/
structure RequestHistoryItem where
  ref : Nat
  method : String
  url : String
  headers : List (String × String)
  body : String
  response_status : Option Int := none
  response_time : Option Nat := none
  response_preview : String := ""
deriving DecidableEq, Repr

/-- Dataclass `__eq__` of `RequestHistoryItem`: field-by-field
structural comparison (the dataclass is declared without `eq=False`).
The model-only `ref` field is not part of it. -/
def itemEq (a b : RequestHistoryItem) : Bool :=
  a.method == b.method && a.url == b.url && a.headers == b.headers && a.body == b.body
    && a.response_status == b.response_status && a.response_time == b.response_time
    && a.response_preview == b.response_preview

/-- Python whitespace as recognized by `str.strip` (space, tab,
newline, carriage return, vertical tab, form feed). -/
def pyIsSpace (c : Char) : Bool :=
  [' ', '\t', '\n', '\r', '\x0b', '\x0c'].contains c

/-- Model of Python `str.strip()`: leading and trailing whitespace
removed. -/
def pyStrip (s : String) : String :=
  String.mk (((s.toList.dropWhile pyIsSpace).reverse.dropWhile pyIsSpace).reverse)

/-- Model of Python `str.upper()` for the ASCII method names in play. -/
def pyUpper (s : String) : String :=
  String.mk (s.toList.map Char.toUpper)

/-- Model of Python slicing `s[:n]`: the first `n` characters. -/
def pyTake (s : String) (n : Nat) : String :=
  String.mk (s.toList.take n)

/-- Model of Python `s.replace("\n", " ")`: a single-character pattern,
hence a character-wise map. -/
def pyReplaceNl (s : String) : String :=
  String.mk (s.toList.map (fun c => if c = '\n' then ' ' else c))

/-- Split at the first occurrence of `sep`, as Python
`s.split(sep, 1)`; `none` when `sep` does not occur (Python's
`sep in s` test failing). -/
def splitFirst (sep : Char) : List Char → Option (List Char × List Char)
  | [] => none
  | c :: rest =>
    if c = sep then some ([], rest)
    else (splitFirst sep rest).map (fun p => (c :: p.1, p.2))

/-- Split into segments at every occurrence of `sep`; with `sep = '\n'`
this is Python `str.splitlines()` on input whose line breaks are all
`'\n'` (the only separator the inputs in play contain). -/
def splitOnChar (sep : Char) : List Char → List (List Char)
  | [] => [[]]
  | c :: rest =>
    let r := splitOnChar sep rest
    if c = sep then [] :: r
    else
      match r with
      | [] => [[c]]
      | g :: gs => (c :: g) :: gs

/-- Python dict assignment `d[k] = v` on an insertion-ordered dict:
an existing key keeps its position and gets the new value, a fresh key
is appended. -/
def dictInsert : List (String × String) → String → String → List (String × String)
  | [], k, v => [(k, v)]
  | (k0, v0) :: rest, k, v =>
    if k0 = k then (k, v) :: rest else (k0, v0) :: dictInsert rest k v

/-- Handling of one line of raw header text inside
`ApiTesterApp._parse_headers` (src/app.py lines 294-304): blank lines
are skipped; a line without a colon is recorded as a warning (the
`messagebox.showwarning` dialog) and ignored; otherwise the line is
split at the first colon and both sides stripped. -/
def processHeaderLine (acc : List (String × String) × List String) (line : String) :
    List (String × String) × List String :=
  if pyStrip line = "" then acc
  else
    match splitFirst ':' line.toList with
    | none => (acc.1, acc.2 ++ [line])
    | some (key, value) =>
      (dictInsert acc.1 (pyStrip (String.mk key)) (pyStrip (String.mk value)), acc.2)

/-- Embedding of `ApiTesterApp._parse_headers` (src/app.py lines
291-305); returns the parsed headers dict together with the list of
malformed lines that triggered warning dialogs. -/
def parseHeaders (raw : String) : List (String × String) × List String :=
  ((splitOnChar '\n' (pyStrip raw).toList).map String.mk).foldl processHeaderLine ([], [])

/-- State touched by `_queue_request`: the History Store, the Dispatch
Queue (`request_queue` contents, oldest first) and a fresh-identity
allocator for `ref`. -/
structure AppState where
  history : List RequestHistoryItem
  request_queue : List RequestHistoryItem
  nextRef : Nat
deriving DecidableEq, Repr

/-- Result of a `_queue_request` call: the `Missing URL` error dialog
plus early return, or success carrying the malformed-header warnings. -/
inductive SubmitOutcome where
  | missingUrl
  | ok (warnings : List String)
deriving DecidableEq, Repr

/-- Embedding of `ApiTesterApp._queue_request` (src/app.py lines
168-187) without the thread-spawn tail, which the interleaving system
below models: the URL is stripped and must be non-empty, the method is
upper-cased, headers are parsed from the raw text, the body stripped;
the new record is appended to history and enqueued. -/
def queueRequest (s : AppState) (rawUrl method rawHeaders rawBody : String) :
    AppState × SubmitOutcome :=
  let url := pyStrip rawUrl
  if url = "" then (s, SubmitOutcome.missingUrl)
  else
    let parsed := parseHeaders rawHeaders
    let item : RequestHistoryItem :=
      { ref := s.nextRef, method := pyUpper method, url := url,
        headers := parsed.1, body := pyStrip rawBody }
    ({ history := s.history ++ [item], request_queue := s.request_queue ++ [item],
       nextRef := s.nextRef + 1 }, SubmitOutcome.ok parsed.2)

/-- Result of one `requests.request` call as seen by the worker: a
response (status code, reason phrase, headers, body text) or a raised
`requests.exceptions.RequestException` carrying `str(exc)`. -/
inductive TransportResult where
  | success (status : Int) (reason : String) (respHeaders : List (String × String)) (text : String)
  | failure (desc : String)
deriving DecidableEq, Repr

/-- The `result` dict built in `_worker_loop` (src/app.py lines
206-222). `elapsed` keeps the measured value whose display form is
`f"\x7belapsed:.2f\x7d s"`. -/
structure ResultEntry where
  status : String
  elapsed : Nat
  headers : String
  body : String
deriving DecidableEq, Repr

/-- One iteration body of `_worker_loop` (src/app.py lines 191-223) on
a dequeued record: the try branch on a response, the except branch on a
`RequestException`. Returns the mutated record and the result dict put
on `response_queue`. -/
def processItem (item : RequestHistoryItem) (tr : TransportResult) (elapsed : Nat) :
    RequestHistoryItem × ResultEntry :=
  match tr with
  | .success status reason respHeaders text =>
      let preview := pyReplaceNl (pyTake text 200)
      ({ item with response_status := some status, response_time := some elapsed,
                   response_preview := preview },
       { status := toString status ++ " " ++ reason, elapsed := elapsed,
         headers := jsonDumps (Json.obj (respHeaders.foldr
           (fun p acc => JsonFields.cons p.1 (Json.str p.2) acc) JsonFields.nil)),
         body := formatBody text })
  | .failure desc =>
      ({ item with response_status := none, response_time := some elapsed,
                   response_preview := desc },
       { status := "Request failed", elapsed := elapsed, headers := "", body := desc })

/-- The drain of `_worker_loop` over the queue contents, with the
transport result and elapsed time of each record supplied by the
environment; produces the `(item, result)` pairs published on
`response_queue` in dequeue order. -/
def workerLoop :
    List (RequestHistoryItem × TransportResult × Nat) → List (RequestHistoryItem × ResultEntry)
  | [] => []
  | (item, tr, elapsed) :: rest => processItem item tr elapsed :: workerLoop rest

/-- Handling of one drained pair inside `poll_queue`
(src/app.py lines 229-232): `item == self.history[-1]` evaluates
`self.history[-1]` first — `none` models the `IndexError` raised on an
empty history; otherwise the returned Bool says whether
`_display_response` ran (the dataclass equality with the last entry). -/
def pollHandlePair (history : List RequestHistoryItem)
    (pair : RequestHistoryItem × ResultEntry) : Option Bool :=
  match history.getLast? with
  | none => none
  | some last => some (itemEq pair.1 last)

/-- The non-blocking drain of `poll_queue` over the currently available
pairs: `none` models the `IndexError` escaping the `except queue.Empty`
handler; on success, the list of live-panel-update decisions. -/
def pollDrain (history : List RequestHistoryItem) :
    List (RequestHistoryItem × ResultEntry) → Option (List Bool)
  | [] => some []
  | pair :: rest =>
    match pollHandlePair history pair with
    | none => none
    | some b => (pollDrain history rest).map (fun bs => b :: bs)

/-- Python `del l[i]` for a non-negative index: `none` models the
`IndexError` raised when the index is not a valid position, which
leaves the list untouched. -/
def pyDeleteAt {α : Type} (l : List α) (i : Nat) : Option (List α) :=
  if i < l.length then some (l.take i ++ l.drop (i + 1)) else none

/-- Embedding of `ApiTesterApp._delete_selected_history` (src/app.py
lines 268-274): no selection is a no-op; otherwise the listbox row
(most-recent-first) is mapped to the store index `len - 1 - sel` and
that entry deleted; a raised `IndexError` leaves the history as is. -/
def deleteSelectedHistory (history : List RequestHistoryItem) (selection : Option Nat) :
    List RequestHistoryItem :=
  match selection with
  | none => history
  | some sel =>
    match pyDeleteAt history (history.length - 1 - sel) with
    | some h => h
    | none => history

/-- Embedding of the confirmed branch of `ApiTesterApp._clear_history`
(src/app.py lines 276-279). -/
def clearHistory (_history : List RequestHistoryItem) : List RequestHistoryItem :=
  []

/-- Status of one spawned worker thread running `_worker_loop`: between
loop iterations (`atCheck`), inside `requests.request` for the record
with the given identity (`processing`), or returned after finding the
queue empty (`exited`). -/
inductive WStatus where
  | atCheck
  | processing (ref : Nat)
  | exited
deriving DecidableEq, Repr

/-- Shared state of the thread-spawn logic: the Dispatch Queue contents
(record identities, oldest first) and every worker thread ever spawned. -/
structure SysState where
  dq : List Nat
  workers : List WStatus
deriving DecidableEq, Repr

/-- Interleaved events: a `_queue_request` submission (modelled as one
atomic step `put` + `qsize() == 1` check + conditional `Thread(...).start()`
— collapsing the three main-thread statements only removes
interleavings), a worker passing its `while not empty()` check and
dequeueing, and a worker finishing its transport call. -/
inductive SysAction where
  | submit (ref : Nat)
  | workerTake (w : Nat)
  | workerFinish (w : Nat)
deriving DecidableEq, Repr

/-- One step of the interleaved system; `none` means the action is not
enabled in this state. `submit` mirrors src/app.py lines 180-187: the
record is enqueued and a new worker thread is started exactly when the
queue size just after the put is 1. `workerTake` mirrors lines 190-191:
an idle worker exits on an empty queue and otherwise dequeues the head. -/
def sysStep (s : SysState) : SysAction → Option SysState
  | SysAction.submit ref =>
    let dq := s.dq ++ [ref]
    some { dq := dq,
           workers := if dq.length == 1 then s.workers ++ [WStatus.atCheck] else s.workers }
  | SysAction.workerTake w =>
    match s.workers[w]? with
    | some WStatus.atCheck =>
      match s.dq with
      | [] => some { s with workers := s.workers.set w WStatus.exited }
      | ref :: rest => some { dq := rest, workers := s.workers.set w (WStatus.processing ref) }
    | _ => none
  | SysAction.workerFinish w =>
    match s.workers[w]? with
    | some (WStatus.processing _) => some { s with workers := s.workers.set w WStatus.atCheck }
    | _ => none

/-- Run of a sequence of interleaved actions. -/
def sysRun (s : SysState) : List SysAction → Option SysState
  | [] => some s
  | a :: rest =>
    match sysStep s a with
    | none => none
    | some s2 => sysRun s2 rest

/-- Initial state: empty queue, no worker thread ever started. -/
def initSys : SysState :=
  { dq := [], workers := [] }

/-- Number of worker threads currently alive (spawned and not yet
returned from `_worker_loop`). -/
def aliveWorkers (s : SysState) : Nat :=
  (s.workers.filter (fun w => !(w == WStatus.exited))).length

/-- Records with identical dataclass content but distinct object
identities, together with a result dict, exercising the live-panel
decision of the poll loop. -/
def twinA : RequestHistoryItem :=
  { ref := 0, method := "GET", url := "https://example.test/ok", headers := [], body := "" }

/-- Second record, equal to `twinA` in every dataclass field but a
distinct object. -/
def twinB : RequestHistoryItem :=
  { ref := 1, method := "GET", url := "https://example.test/ok", headers := [], body := "" }

/-- Sample record used to instantiate concrete inputs. -/
def sampleItem : RequestHistoryItem :=
  { ref := 0, method := "GET", url := "https://example.test/ok", headers := [], body := "" }

/-- C1: the single-worker invariant fails on the code. Record 0 is
submitted with no worker alive; the spawned worker dequeues it and is
mid-transport when record 1 is submitted; the queue was empty
immediately prior to that enqueue, so `qsize() == 1` holds after the
put and `_queue_request` starts a second worker thread. The reached
state has two worker contexts alive, both inside `requests.request`,
so record 1 begins before record 0 completes dispatch. -/
theorem worker_duplication_trace :
    ∃ s, sysRun initSys
        [SysAction.submit 0, SysAction.workerTake 0, SysAction.submit 1, SysAction.workerTake 1]
        = some s
      ∧ s.workers = [WStatus.processing 0, WStatus.processing 1]
      ∧ aliveWorkers s = 2 :=
  ⟨{ dq := [], workers := [WStatus.processing 0, WStatus.processing 1] }, rfl, rfl, rfl⟩

/-- C2 counterexample: the poll loop compares `item == self.history[-1]`
with the dataclass-generated `__eq__`, which is content equality, not
reference identity. Submit the identical request twice; the worker
completes both with the same status, body and elapsed time; the poll
loop then drains the first record's pair. That record is not the
most-recently-appended entry (the identities differ), yet the live
panel is updated, because its content equals that of the latest entry. -/
theorem live_panel_not_reference_identity :
    twinA.ref ≠ twinB.ref
    ∧ (processItem twinA (TransportResult.success 200 "OK" [] "ok") 1).1.ref
        ≠ (processItem twinB (TransportResult.success 200 "OK" [] "ok") 1).1.ref
    ∧ pollHandlePair
        [(processItem twinA (TransportResult.success 200 "OK" [] "ok") 1).1,
         (processItem twinB (TransportResult.success 200 "OK" [] "ok") 1).1]
        (processItem twinA (TransportResult.success 200 "OK" [] "ok") 1)
      = some true := by
  exact ⟨by decide, by decide, by decide⟩

/-- C2 amended: for every drained pair, the live panel is updated if
and only if the record compares equal to the most-recently-appended
history entry under the dataclass field-by-field equality `itemEq`
(reference identity is sufficient but not necessary: records with
identical content also trigger the update). -/
theorem live_panel_dataclass_equality (hs : List RequestHistoryItem)
    (last item : RequestHistoryItem) (r : ResultEntry) :
    pollHandlePair (hs ++ [last]) (item, r) = some (itemEq item last) := by
  simp [pollHandlePair, List.getLast?_concat]

/-- C5: on a transport failure the published result dict carries the
human-readable `str(exc)` description with status line `Request
failed`, the elapsed time is still recorded on the record, the record's
status stays unset (`None`), and the worker loop goes on to the next
queued item: every queued record yields exactly one published pair no
matter how many transport calls fail. -/
theorem worker_failure_resilience (item : RequestHistoryItem) (desc : String) (elapsed : Nat)
    (rest : List (RequestHistoryItem × TransportResult × Nat)) :
    (processItem item (TransportResult.failure desc) elapsed).1.response_status = none
    ∧ (processItem item (TransportResult.failure desc) elapsed).1.response_time = some elapsed
    ∧ (processItem item (TransportResult.failure desc) elapsed).1.response_preview = desc
    ∧ (processItem item (TransportResult.failure desc) elapsed).2
        = { status := "Request failed", elapsed := elapsed, headers := "", body := desc }
    ∧ workerLoop ((item, TransportResult.failure desc, elapsed) :: rest)
        = processItem item (TransportResult.failure desc) elapsed :: workerLoop rest
    ∧ ∀ q, (workerLoop q).length = q.length := by
  refine ⟨rfl, rfl, rfl, rfl, rfl, ?_⟩
  intro q
  induction q with
  | nil => rfl
  | cons hd tl ih =>
    obtain ⟨i, tr, e⟩ := hd
    simp [workerLoop, ih]

/-- C9: the poll loop reads `self.history[-1]` unconditionally for each
drained pair, so draining a completed pair against an empty History
Store (possible after Clear or Delete removed all entries while a
request was in flight) raises `IndexError` instead of being a no-op;
only the genuinely empty drain is a no-op. -/
theorem poll_empty_history_failure (pair : RequestHistoryItem × ResultEntry)
    (rest : List (RequestHistoryItem × ResultEntry)) :
    pollHandlePair [] pair = none
    ∧ pollDrain [] (pair :: rest) = none
    ∧ pollDrain ([] : List RequestHistoryItem) [] = some [] := by
  exact ⟨rfl, rfl, rfl⟩

/-- C3: submitting with an empty URL fails with the `Missing URL` error
and leaves both the History Store and the Dispatch Queue untouched,
while every successful submission appends exactly one record to the
history and enqueues exactly that record. -/
theorem submit_validation (s : AppState) (method rawHeaders rawBody : String) :
    queueRequest s "" method rawHeaders rawBody = (s, SubmitOutcome.missingUrl)
    ∧ ∀ rawUrl, pyStrip rawUrl ≠ "" →
        ∃ item,
          (queueRequest s rawUrl method rawHeaders rawBody).1.history = s.history ++ [item]
          ∧ (queueRequest s rawUrl method rawHeaders rawBody).1.request_queue
              = s.request_queue ++ [item]
          ∧ (queueRequest s rawUrl method rawHeaders rawBody).2
              = SubmitOutcome.ok (parseHeaders rawHeaders).2 := by
  constructor
  · rfl
  · intro rawUrl h
    unfold queueRequest
    rw [if_neg h]
    exact ⟨_, rfl, rfl, rfl⟩

/-- C3 witness: instantiation on the empty store with an empty URL and
with the concrete URL `https://example.test/ok`. -/
theorem submit_validation_witness :
    queueRequest { history := [], request_queue := [], nextRef := 0 } "" "GET" "" ""
      = ({ history := [], request_queue := [], nextRef := 0 }, SubmitOutcome.missingUrl)
    ∧ ∃ item,
        (queueRequest { history := [], request_queue := [], nextRef := 0 }
            "https://example.test/ok" "GET" "" "").1.history = [] ++ [item]
        ∧ (queueRequest { history := [], request_queue := [], nextRef := 0 }
            "https://example.test/ok" "GET" "" "").1.request_queue = [] ++ [item]
        ∧ (queueRequest { history := [], request_queue := [], nextRef := 0 }
            "https://example.test/ok" "GET" "" "").2 = SubmitOutcome.ok (parseHeaders "").2 :=
  ⟨(submit_validation { history := [], request_queue := [], nextRef := 0 } "GET" "" "").1,
   (submit_validation { history := [], request_queue := [], nextRef := 0 } "GET" "" "").2
     "https://example.test/ok" (by decide)⟩

/-- C4: each non-blank header line containing a colon becomes a
key/value pair split at the first colon, a non-blank line without a
colon is skipped with a non-fatal warning, and blank lines are ignored;
the raw text `X-Test: 1\nBad-Line\nY: 2` parses to exactly
`X-Test ↦ 1, Y ↦ 2` with the single warning `Bad-Line`, and a
submission carrying that header text still succeeds. -/
theorem header_parsing (d : List (String × String)) (w : List String) (line : String) :
    (pyStrip line = "" → processHeaderLine (d, w) line = (d, w))
    ∧ (pyStrip line ≠ "" → splitFirst ':' line.toList = none →
        processHeaderLine (d, w) line = (d, w ++ [line]))
    ∧ (pyStrip line ≠ "" → ∀ key value, splitFirst ':' line.toList = some (key, value) →
        processHeaderLine (d, w) line
          = (dictInsert d (pyStrip (String.mk key)) (pyStrip (String.mk value)), w))
    ∧ parseHeaders "X-Test: 1\nBad-Line\nY: 2" = ([("X-Test", "1"), ("Y", "2")], ["Bad-Line"])
    ∧ (queueRequest { history := [], request_queue := [], nextRef := 0 }
        "https://example.test/ok" "GET" "X-Test: 1\nBad-Line\nY: 2" "").2
        = SubmitOutcome.ok ["Bad-Line"] := by
  refine ⟨?_, ?_, ?_, by decide, by decide⟩
  · intro h
    simp [processHeaderLine, h]
  · intro h1 h2
    simp only [processHeaderLine, if_neg h1]
    rw [h2]
  · intro h1 key value h2
    simp only [processHeaderLine, if_neg h1]
    rw [h2]

/-- C4 witness: instantiation on the three lines of the round-trip
example. -/
theorem header_parsing_witness :
    processHeaderLine ([], []) "" = ([], [])
    ∧ processHeaderLine ([], []) "Bad-Line" = ([], ["Bad-Line"])
    ∧ processHeaderLine ([], []) "X-Test: 1" = ([("X-Test", "1")], []) :=
  ⟨(header_parsing [] [] "").1 (by decide),
   (header_parsing [] [] "Bad-Line").2.1 (by decide) (by decide),
   (header_parsing [] [] "X-Test: 1").2.2.1 (by decide) "X-Test".toList " 1".toList (by decide)⟩

/-- C10: submission normalizes its inputs — a whitespace-only URL is
rejected exactly like an empty one with nothing appended or enqueued,
a stored record carries the stripped URL and stripped body, and a
duplicate header key (after stripping) resolves last-line-wins in the
parsed mapping. -/
theorem submit_normalization (s : AppState) (method rawHeaders rawBody : String) :
    (∀ rawUrl, pyStrip rawUrl = "" →
        queueRequest s rawUrl method rawHeaders rawBody = (s, SubmitOutcome.missingUrl))
    ∧ (∀ rawUrl, pyStrip rawUrl ≠ "" →
        ∃ item,
          (queueRequest s rawUrl method rawHeaders rawBody).1.history = s.history ++ [item]
          ∧ item.url = pyStrip rawUrl ∧ item.body = pyStrip rawBody
          ∧ item.headers = (parseHeaders rawHeaders).1)
    ∧ (∀ d k v, (dictInsert d k v).lookup k = some v)
    ∧ (parseHeaders "A: 1\nA: 2").1 = [("A", "2")] := by
  refine ⟨?_, ?_, ?_, by decide⟩
  · intro rawUrl h
    unfold queueRequest
    rw [if_pos h]
  · intro rawUrl h
    unfold queueRequest
    rw [if_neg h]
    exact ⟨_, rfl, rfl, rfl, rfl⟩
  · intro d k v
    induction d with
    | nil => simp [dictInsert]
    | cons hd tl ih =>
      obtain ⟨k0, v0⟩ := hd
      by_cases hk : k0 = k
      · simp [dictInsert, hk, List.lookup]
      · have hne : (k == k0) = false := beq_eq_false_iff_ne.mpr (Ne.symm hk)
        simp [dictInsert, hk, List.lookup, ih, hne]

/-- C10 witness: instantiation on a whitespace-only URL, a concrete
URL with surrounding whitespace, and a duplicated header key. -/
theorem submit_normalization_witness :
    queueRequest { history := [], request_queue := [], nextRef := 0 } "   " "GET" "" ""
      = ({ history := [], request_queue := [], nextRef := 0 }, SubmitOutcome.missingUrl)
    ∧ (∃ item,
        (queueRequest { history := [], request_queue := [], nextRef := 0 }
            " https://example.test/ok " "GET" "" " hello ").1.history = [] ++ [item]
        ∧ item.url = pyStrip " https://example.test/ok " ∧ item.body = pyStrip " hello "
        ∧ item.headers = (parseHeaders "").1)
    ∧ (dictInsert [("A", "1")] "A" "2").lookup "A" = some "2" :=
  ⟨(submit_normalization { history := [], request_queue := [], nextRef := 0 } "GET" "" "").1
      "   " (by decide),
   (submit_normalization { history := [], request_queue := [], nextRef := 0 } "GET" ""
      " hello ").2.1 " https://example.test/ok " (by decide),
   (submit_normalization { history := [], request_queue := [], nextRef := 0 } "GET" "" "").2.2.1
      [("A", "1")] "A" "2"⟩

/-- C6: `del self.history[index]` with an out-of-range position raises
`IndexError` and produces no modified list (the store is left as it
was, which `deleteSelectedHistory` makes explicit), while a valid
position removes exactly that entry: the length drops by one, earlier
indices are untouched and later indices shift down by one. -/
theorem delete_history (l : List RequestHistoryItem) (i : Nat) :
    (l.length ≤ i → pyDeleteAt l i = none)
    ∧ (i < l.length →
        pyDeleteAt l i = some (l.take i ++ l.drop (i + 1))
        ∧ (l.take i ++ l.drop (i + 1)).length + 1 = l.length
        ∧ (∀ j, j < i → (l.take i ++ l.drop (i + 1))[j]? = l[j]?)
        ∧ (∀ j, i ≤ j → (l.take i ++ l.drop (i + 1))[j]? = l[j + 1]?))
    ∧ deleteSelectedHistory l none = l := by
  refine ⟨?_, ?_, rfl⟩
  · intro h
    simp [pyDeleteAt, Nat.not_lt.mpr h]
  · intro h
    have hti : (l.take i).length = i := by
      simp [List.length_take]
      omega
    refine ⟨by simp [pyDeleteAt, h], ?_, ?_, ?_⟩
    · simp [List.length_take, List.length_drop]
      omega
    · intro j hj
      rw [List.getElem?_append_left (by omega : j < (l.take i).length)]
      exact List.getElem?_take_of_lt hj
    · intro j hj
      rw [List.getElem?_append_right (by omega : (l.take i).length ≤ j),
          List.getElem?_drop, hti]
      congr 1
      omega

/-- C6 witness: instantiation on a one-entry history with the
out-of-range index 1 and the valid index 0. -/
theorem delete_history_witness :
    pyDeleteAt [sampleItem] 1 = none ∧ pyDeleteAt [sampleItem] 0 = some [] :=
  ⟨(delete_history [sampleItem] 1).1 (by decide),
   ((delete_history [sampleItem] 0).2.1 (by decide)).1⟩

/-- C7: on a successful exchange the record is mutated to carry the
status code, the elapsed time and the preview — the first 200
characters of the raw body, truncated first and newline characters then
replaced by spaces, which coincides with replacing first and truncating
then, and is never longer than 200 characters; and across a whole
worker run every record is mutated exactly as many times as it was
enqueued (exactly once for a record enqueued once, and the poll loop,
which only produces display decisions, never mutates it again). -/
theorem success_mutation (item : RequestHistoryItem) (status : Int) (reason : String)
    (respHeaders : List (String × String)) (text : String) (elapsed : Nat) :
    (processItem item (TransportResult.success status reason respHeaders text) elapsed).1
      = { item with response_status := some status, response_time := some elapsed,
                    response_preview := pyReplaceNl (pyTake text 200) }
    ∧ pyReplaceNl (pyTake text 200) = pyTake (pyReplaceNl text) 200
    ∧ (pyReplaceNl (pyTake text 200)).length ≤ 200
    ∧ ∀ q r, ((workerLoop q).filter (fun p => p.1.ref == r)).length
        = (q.filter (fun e => e.1.ref == r)).length := by
  refine ⟨rfl, ?_, ?_, ?_⟩
  · simp [pyReplaceNl, pyTake, List.map_take]
  · show (List.map _ (text.toList.take 200)).length ≤ 200
    rw [List.length_map]
    exact List.length_take_le 200 text.toList
  · intro q r
    induction q with
    | nil => rfl
    | cons hd tl ih =>
      obtain ⟨i, tr, e⟩ := hd
      have href : (processItem i tr e).1.ref = i.ref := by
        cases tr <;> rfl
      by_cases hr : (i.ref == r) = true
      · simp [workerLoop, List.filter_cons, href, hr, ih]
      · simp [workerLoop, List.filter_cons, href, hr, ih]

/-- C8 counterexample: the worker computes `_format_body` itself and
publishes the formatted body in the result dict, so for the raw body
`\x7b"a":1\x7d` the outcome's body field is the indented
re-serialization, not the raw text — the core does not store the raw
text unchanged in the outcome (nor in the record, which keeps only the
preview). -/
theorem outcome_body_not_raw :
    (processItem sampleItem
      (TransportResult.success 200 "OK" [] "\x7b\"a\":1\x7d") 1).2.body
      ≠ "\x7b\"a\":1\x7d"
    ∧ (processItem sampleItem
      (TransportResult.success 200 "OK" [] "\x7b\"a\":1\x7d") 1).2.body
      = "\x7b\n  \"a\": 1\n\x7d" := by
  exact ⟨by decide, rfl⟩

/-- C8 amended: `_format_body` is the identity on input that does not
parse as JSON and maps parsed input to its re-serialized indented form
(`\x7b"a":1\x7d` formats to `\x7b\n  "a": 1\n\x7d`); the worker feeds
the raw body through `_format_body` and publishes the *formatted* text
as the outcome's body — the raw text itself is not stored on the
record or outcome. -/
theorem body_formatting (body : String) :
    (jsonLoads body = none → formatBody body = body)
    ∧ (∀ v, jsonLoads body = some v → formatBody body = jsonDumps v)
    ∧ formatBody "\x7b\"a\":1\x7d" = "\x7b\n  \"a\": 1\n\x7d"
    ∧ ∀ item status reason respHeaders elapsed,
        (processItem item (TransportResult.success status reason respHeaders body) elapsed).2.body
          = formatBody body := by
  refine ⟨?_, ?_, rfl, ?_⟩
  · intro h
    simp [formatBody, h]
  · intro v h
    simp [formatBody, h]
  · intro item status reason respHeaders elapsed
    rfl

/-- C8 witness: instantiation of the non-JSON branch on `not json` and
of the JSON branch on `\x7b"a":1\x7d`. -/
theorem body_formatting_witness :
    formatBody "not json" = "not json"
    ∧ formatBody "\x7b\"a\":1\x7d"
        = jsonDumps (Json.obj (JsonFields.cons "a" (Json.num 1) JsonFields.nil)) :=
  ⟨(body_formatting "not json").1 rfl,
   (body_formatting "\x7b\"a\":1\x7d").2.1
     (Json.obj (JsonFields.cons "a" (Json.num 1) JsonFields.nil)) rfl⟩

end BackendGui
